import Mathlib

/-!
Verification of the AdminForth Amazon S3 storage adapter (src/index.ts).

The adapter is a thin translation layer: each public method builds one
request object for the storage service and either returns a derived value
or sends the request.  We embed the adapter shallowly:

* `AdapterOptions` mirrors the configuration record (`AdapterOptions` in
  types.js as used by index.ts: bucket, region, credentials, s3ACL).
* Request construction is modelled by explicit parameter structures
  (`PutObjectParams`, `PutObjectTaggingParams`, lifecycle structures)
  matching the fields index.ts puts into the AWS SDK commands.
* `getSignedUrl` is opaque network-free signing in the SDK; we model its
  result as a `SignedUrl` record carrying exactly the inputs the source
  passes to it (command, expiresIn, unhoistableHeaders).
* Stateful operations (`setupLifecycle`, tagging) are modelled as pure
  state transformers over an explicit S3 service state with fault
  injection (`S3State`, `TagStore`), returning the adapter result, the
  new service state and the trace of requests issued.
* JavaScript truthiness of the string options (`!x`, `x || d`) is made
  explicit (`strFalsy`, `jsOr`): `undefined` is `none`, and the empty
  string is falsy.
-/

/-- Constant `CLEANUP_TAG_KEY` from index.ts line 17. -/
def CLEANUP_TAG_KEY : String := "adminforth-candidate-for-cleanup"

/-- Constant `CLEANUP_RULE_ID` from index.ts line 18. -/
def CLEANUP_RULE_ID : String := "adminforth-unused-cleaner"

/-- Configuration record supplied at construction (`AdapterOptions`).
Credential fields and `s3ACL` are optional in the TypeScript type, so we
model them as `Option String`; `none` is JavaScript `undefined`. -/
structure AdapterOptions where
  bucket : String
  region : String
  accessKeyId : Option String
  secretAccessKey : Option String
  s3ACL : Option String
deriving DecidableEq, Repr

/-- JavaScript falsiness of an optional string: `!x` is true exactly for
`undefined`/`null` and the empty string. -/
def strFalsy : Option String → Bool
  | none => true
  | some s => s == ""

/-- JavaScript `x || d` on an optional string: the default is taken when
`x` is `undefined` or empty. -/
def jsOr (x : Option String) (d : String) : String :=
  match x with
  | none => d
  | some s => if s == "" then d else s

/-- Fields of the `PutObjectCommand` built by `getUploadSignedUrl`
(index.ts lines 30-36). -/
structure PutObjectParams where
  Bucket : String
  ContentType : String
  ACL : String
  Key : String
  Tagging : String
deriving DecidableEq, Repr

/-- Result of the SDK `getSignedUrl` call, modelled as the exact inputs
the source hands to the signer: the command, the expiry window, and the
set of headers excluded from signature hoisting. -/
structure SignedUrl where
  command : PutObjectParams
  expiresIn : Nat
  unhoistableHeaders : List String
deriving DecidableEq, Repr

/-- Return record of `getUploadSignedUrl` (index.ts lines 38-43); the
extra-params map is an association list. -/
structure UploadUrlResult where
  uploadUrl : SignedUrl
  uploadExtraParams : List (String × String)
deriving DecidableEq, Repr

/-- `getUploadSignedUrl(key, contentType, expiresIn)` (index.ts lines
28-44): builds the tagged `PutObjectCommand`, signs it with
`x-amz-tagging` unhoistable, and returns the URL plus the literal extra
header pair. -/
def getUploadSignedUrl (opts : AdapterOptions) (key contentType : String)
    (expiresIn : Nat) : UploadUrlResult :=
  let tagline := CLEANUP_TAG_KEY ++ "=true"
  let command : PutObjectParams :=
    ⟨opts.bucket, contentType, jsOr opts.s3ACL "private", key, tagline⟩
  ⟨⟨command, expiresIn, ["x-amz-tagging"]⟩, [("x-amz-tagging", tagline)]⟩

/-- `getUploadSignedUrl` with the source's default `expiresIn = 3600`. -/
def getUploadSignedUrlD (opts : AdapterOptions) (key contentType : String) :
    UploadUrlResult :=
  getUploadSignedUrl opts key contentType 3600

/-- A download URL: either a direct public URL string, or a URL signed
for a `GetObject` of the given bucket/key valid for `expiresIn`
seconds. -/
inductive Url where
  | direct (url : String)
  | signed (bucket : String) (key : String) (expiresIn : Nat)
deriving DecidableEq, Repr

/-- `getDownloadUrl(key, expiresIn)` (index.ts lines 46-58): public-read
buckets get a composed https URL, otherwise a presigned `GetObject`
URL. -/
def getDownloadUrl (opts : AdapterOptions) (key : String) (expiresIn : Nat) :
    Url :=
  if opts.s3ACL == some "public-read" then
    Url.direct ("https://" ++ opts.bucket ++ "/" ++ key)
  else
    Url.signed opts.bucket key expiresIn

/-- `getDownloadUrl` with the source's default `expiresIn = 3600`. -/
def getDownloadUrlD (opts : AdapterOptions) (key : String) : Url :=
  getDownloadUrl opts key 3600

/-- `objectCanBeAccesedPublicly()` (index.ts lines 141-143): pure test of
the configured ACL. -/
def objectCanBeAccesedPublicly (opts : AdapterOptions) : Bool :=
  opts.s3ACL == some "public-read"

/-- An error raised by the storage service; only its `name` is inspected
by the adapter (index.ts line 106). -/
structure S3Error where
  name : String
deriving DecidableEq, Repr

/-- The `Tag` filter of a lifecycle rule (index.ts lines 122-125). -/
structure LifecycleTag where
  Key : String
  Value : String
deriving DecidableEq, Repr

/-- The `Filter` of a lifecycle rule (index.ts lines 121-126). -/
structure LifecycleFilter where
  Tag : LifecycleTag
deriving DecidableEq, Repr

/-- The `Expiration` of a lifecycle rule (index.ts lines 127-129). -/
structure LifecycleExpiration where
  Days : Nat
deriving DecidableEq, Repr

/-- A bucket lifecycle rule as built and inspected by the adapter
(index.ts lines 104 and 117-131). -/
structure LifecycleRule where
  ID : String
  Status : String
  Filter : LifecycleFilter
  Expiration : LifecycleExpiration
deriving DecidableEq, Repr

/-- The single rule `setupLifecycle` writes (index.ts lines 117-131). -/
def cleanupRule : LifecycleRule :=
  ⟨CLEANUP_RULE_ID, "Enabled", ⟨⟨CLEANUP_TAG_KEY, "true"⟩⟩, ⟨2⟩⟩

/-- The client configuration `setupLifecycle` builds from the options
(index.ts lines 86-92). -/
structure S3ClientConfig where
  region : String
  accessKeyId : String
  secretAccessKey : String
deriving DecidableEq, Repr

/-- A request issued to the storage service, recorded in traces. -/
inductive S3Request where
  | headBucket (bucket : String)
  | getBucketLifecycleConfiguration (bucket : String)
  | putBucketLifecycleConfiguration (bucket : String)
      (rules : List LifecycleRule)
deriving DecidableEq, Repr

/-- Storage-service state seen by `setupLifecycle`, with fault
injection: `headErr` makes the bucket-existence probe fail with that
error, `getLifecycleErr` makes the lifecycle-configuration read fail
with that error, and `lifecycleConf` is the bucket's current lifecycle
configuration (`none` = no configuration present, which the real service
reports as a `NoSuchLifecycleConfiguration` error). -/
structure S3State where
  headErr : Option S3Error
  getLifecycleErr : Option S3Error
  lifecycleConf : Option (List LifecycleRule)
deriving DecidableEq, Repr

/-- Service response to `GetBucketLifecycleConfigurationCommand`: an
injected error, a `NoSuchLifecycleConfiguration` error when the bucket
has no configuration, or the configured rules. -/
def getLifecycleRespOf (st : S3State) :
    Except S3Error (Option (List LifecycleRule)) :=
  match st.getLifecycleErr with
  | some e => Except.error e
  | none =>
    match st.lifecycleConf with
    | none => Except.error ⟨"NoSuchLifecycleConfiguration"⟩
    | some rs => Except.ok (some rs)

/-- `res.Rules?.some((r) => r.ID === CLEANUP_RULE_ID) ?? false`
(index.ts line 104). -/
def ruleExistsOf (rules : Option (List LifecycleRule)) : Bool :=
  (rules.map (fun rs => rs.any (fun r => r.ID == CLEANUP_RULE_ID))).getD false

/-- Errors thrown by `setupLifecycle`: the missing-credentials error
(line 84), the normalized bucket error (line 96), or a re-thrown service
error (line 108). -/
inductive SetupError where
  | missingCredentials (msg : String)
  | bucketMissing (msg : String)
  | s3 (e : S3Error)
deriving DecidableEq, Repr

deriving instance DecidableEq for Except

/-- Outcome of one `setupLifecycle` call: the thrown error or success,
the adapter's client field after the call, the service state after the
call, and the trace of requests issued. -/
structure SetupResult where
  result : Except SetupError Unit
  client : Option S3ClientConfig
  s3 : S3State
  trace : List S3Request
deriving DecidableEq, Repr

/-- `setupLifecycle()` (index.ts lines 82-139) as a state transformer:
checks credentials, creates the client, probes the bucket (normalizing
any failure), reads the lifecycle configuration (treating
`NoSuchLifecycleConfiguration` as "no rule", re-throwing anything else),
and writes the single cleanup rule when no rule with `CLEANUP_RULE_ID`
exists. -/
def setupLifecycle (opts : AdapterOptions) (client0 : Option S3ClientConfig)
    (st0 : S3State) : SetupResult :=
  if strFalsy opts.accessKeyId || strFalsy opts.secretAccessKey then
    ⟨Except.error (SetupError.missingCredentials
        "Missing AWS credentials in environment variables"),
      client0, st0, []⟩
  else
    let client := some (S3ClientConfig.mk opts.region
      (opts.accessKeyId.getD "") (opts.secretAccessKey.getD ""))
    match st0.headErr with
    | some _ =>
      ⟨Except.error (SetupError.bucketMissing
          ("Bucket \"" ++ opts.bucket ++ "\" does not exist")),
        client, st0, [S3Request.headBucket opts.bucket]⟩
    | none =>
      let trace1 := [S3Request.headBucket opts.bucket,
        S3Request.getBucketLifecycleConfiguration opts.bucket]
      match getLifecycleRespOf st0 with
      | Except.error e =>
        if e.name == "NoSuchLifecycleConfiguration" then
          ⟨Except.ok (), client,
            S3State.mk st0.headErr st0.getLifecycleErr (some [cleanupRule]),
            trace1 ++ [S3Request.putBucketLifecycleConfiguration opts.bucket
              [cleanupRule]]⟩
        else
          ⟨Except.error (SetupError.s3 e), client, st0, trace1⟩
      | Except.ok rules =>
        if ruleExistsOf rules then
          ⟨Except.ok (), client, st0, trace1⟩
        else
          ⟨Except.ok (), client,
            S3State.mk st0.headErr st0.getLifecycleErr (some [cleanupRule]),
            trace1 ++ [S3Request.putBucketLifecycleConfiguration opts.bucket
              [cleanupRule]]⟩

/-- Number of `PutBucketLifecycleConfigurationCommand` requests in a
trace. -/
def putCount (tr : List S3Request) : Nat :=
  (tr.filter (fun rq =>
    match rq with
    | S3Request.putBucketLifecycleConfiguration _ _ => true
    | _ => false)).length

/-- Number of rules with the cleanup identifier in a bucket's lifecycle
configuration. -/
def cleanupIdCount (conf : Option (List LifecycleRule)) : Nat :=
  ((conf.getD []).filter (fun r => r.ID == CLEANUP_RULE_ID)).length

/-- Fields of a `PutObjectTaggingCommand` (index.ts lines 61-67 and
72-78); the `TagSet` is a list of key/value pairs. -/
structure PutObjectTaggingParams where
  Bucket : String
  Key : String
  TagSet : List (String × String)
deriving DecidableEq, Repr

/-- The command built by `markKeyForDeletion(key)` (index.ts lines
60-68). -/
def markKeyForDeletionCmd (opts : AdapterOptions) (key : String) :
    PutObjectTaggingParams :=
  ⟨opts.bucket, key, [(CLEANUP_TAG_KEY, "true")]⟩

/-- The command built by `markKeyForNotDeletion(key)` (index.ts lines
71-79). -/
def markKeyForNotDeletionCmd (opts : AdapterOptions) (key : String) :
    PutObjectTaggingParams :=
  ⟨opts.bucket, key, []⟩

/-- Remote object-tag store: each existing key carries a full tag set. -/
def TagStore := String → Option (List (String × String))

/-- Service semantics of `PutObjectTagging`: fails for a missing key,
otherwise replaces the key's entire tag set with the request's
`TagSet`. -/
def s3SendPutObjectTagging (store : TagStore)
    (cmd : PutObjectTaggingParams) : Except S3Error TagStore :=
  match store cmd.Key with
  | none => Except.error ⟨"NoSuchKey"⟩
  | some _ =>
    Except.ok (fun k => if k == cmd.Key then some cmd.TagSet else store k)

/-- `markKeyForDeletion(key)` run against a tag store. -/
def markKeyForDeletion (opts : AdapterOptions) (store : TagStore)
    (key : String) : Except S3Error TagStore :=
  s3SendPutObjectTagging store (markKeyForDeletionCmd opts key)

/-- `markKeyForNotDeletion(key)` run against a tag store. -/
def markKeyForNotDeletion (opts : AdapterOptions) (store : TagStore)
    (key : String) : Except S3Error TagStore :=
  s3SendPutObjectTagging store (markKeyForNotDeletionCmd opts key)

/-- The standard base64 alphabet, as used by `Buffer.toString('base64')`. -/
def base64Alphabet : List Char :=
  "ABCDEFGHIJKLMNOPQRSTUVWXYZabcdefghijklmnopqrstuvwxyz0123456789+/".toList

/-- Character of the base64 alphabet at a 6-bit index. -/
def b64Char (n : Nat) : Char := base64Alphabet.getD n 'A'

/-- Base64 encoding of a byte sequence with `=` padding, the semantics
of `buffer.toString('base64')` in index.ts line 169. -/
def base64Encode : List Nat → String
  | [] => ""
  | [a] => String.mk [b64Char (a / 4), b64Char (a % 4 * 16)] ++ "=="
  | [a, b] =>
    String.mk [b64Char (a / 4), b64Char (a % 4 * 16 + b / 16),
      b64Char (b % 16 * 4)] ++ "="
  | a :: b :: c :: rest =>
    String.mk [b64Char (a / 4), b64Char (a % 4 * 16 + b / 16),
      b64Char (b % 16 * 4 + c / 64), b64Char (c % 64)] ++ base64Encode rest

/-- The `Body` of a `GetObject` response: a readable stream delivering
byte chunks, or some other body shape (`Readable` instance check,
index.ts line 159). -/
inductive S3Body where
  | readable (chunks : List (List Nat))
  | notReadable
deriving DecidableEq, Repr

/-- The fields of the `GetObject` response that `getKeyAsDataURL` reads:
`Body` and the optional `ContentType`. -/
structure GetObjectOutput where
  Body : S3Body
  ContentType : Option String
deriving DecidableEq, Repr

/-- `getKeyAsDataURL(key)` (index.ts lines 150-173) applied to the
fetched response: rejects a non-readable body, otherwise concatenates
the chunks, base64-encodes them, and wraps them in a data URL with
`ContentType || 'application/octet-stream'`. -/
def getKeyAsDataURL (resp : GetObjectOutput) : Except String String :=
  match resp.Body with
  | S3Body.notReadable => Except.error "Expected Body to be a Readable stream"
  | S3Body.readable chunks =>
    let buffer := chunks.flatten
    let base64String := base64Encode buffer
    let contentType := jsOr resp.ContentType "application/octet-stream"
    Except.ok ("data:" ++ contentType ++ ";base64," ++ base64String)

/-- C1: for every key, content type and duration, `getUploadSignedUrl`
returns an extra-params map with the single entry
`x-amz-tagging ↦ adminforth-candidate-for-cleanup=true`, and a URL signed
for a PUT of that key with the given content type, the configured ACL
(default private), the same tagging value, with `x-amz-tagging` excluded
from signature hoisting and validity window equal to the duration. -/
theorem getUploadSignedUrl_spec (opts : AdapterOptions)
    (k ct : String) (d : Nat) :
    (getUploadSignedUrl opts k ct d).uploadExtraParams =
      [("x-amz-tagging", "adminforth-candidate-for-cleanup=true")] ∧
    (getUploadSignedUrl opts k ct d).uploadUrl.command =
      ⟨opts.bucket, ct, jsOr opts.s3ACL "private", k,
        "adminforth-candidate-for-cleanup=true"⟩ ∧
    (getUploadSignedUrl opts k ct d).uploadUrl.expiresIn = d ∧
    (getUploadSignedUrl opts k ct d).uploadUrl.unhoistableHeaders =
      ["x-amz-tagging"] := by
  refine ⟨rfl, ?_, rfl, rfl⟩
  rfl

/-- C9: `objectCanBeAccesedPublicly` is true iff the configured ACL is
`public-read`; it is a pure function of the configuration, and with the
ACL unset or `private` it is false. -/
theorem objectCanBeAccesedPublicly_spec (opts : AdapterOptions) :
    (objectCanBeAccesedPublicly opts = true ↔ opts.s3ACL = some "public-read") ∧
    (opts.s3ACL = none → objectCanBeAccesedPublicly opts = false) ∧
    (opts.s3ACL = some "private" → objectCanBeAccesedPublicly opts = false) ∧
    objectCanBeAccesedPublicly opts = objectCanBeAccesedPublicly opts := by
  refine ⟨?_, ?_, ?_, rfl⟩
  · simp [objectCanBeAccesedPublicly]
  · intro h; simp [objectCanBeAccesedPublicly, h]
  · intro h; simp [objectCanBeAccesedPublicly, h]

/-- Witness for C9 at concrete configurations: public-read gives true,
unset gives false. -/
theorem objectCanBeAccesedPublicly_spec_witness :
    objectCanBeAccesedPublicly ⟨"assets", "us-east-1", some "k", some "s",
      some "public-read"⟩ = true ∧
    objectCanBeAccesedPublicly ⟨"assets", "us-east-1", some "k", some "s",
      none⟩ = false :=
  ⟨(objectCanBeAccesedPublicly_spec _).1.mpr rfl,
   (objectCanBeAccesedPublicly_spec _).2.1 rfl⟩

/-- C4: with ACL `public-read`, `getDownloadUrl` is the direct https URL
composed from bucket and key, independent of the duration; otherwise it
is a URL presigned for `GetObject` of that bucket/key with validity
window equal to the duration, and the default duration is 3600. -/
theorem getDownloadUrl_spec (opts : AdapterOptions) (k : String) (d : Nat) :
    (opts.s3ACL = some "public-read" →
      getDownloadUrl opts k d =
        Url.direct ("https://" ++ opts.bucket ++ "/" ++ k) ∧
      ∀ e : Nat, getDownloadUrl opts k d = getDownloadUrl opts k e) ∧
    (opts.s3ACL ≠ some "public-read" →
      getDownloadUrl opts k d = Url.signed opts.bucket k d) ∧
    getDownloadUrlD opts k = getDownloadUrl opts k 3600 := by
  refine ⟨?_, ?_, rfl⟩
  · intro h
    constructor
    · simp [getDownloadUrl, h]
    · intro e; simp [getDownloadUrl, h]
  · intro h
    simp [getDownloadUrl, h]

/-- Witness for C4 at concrete configurations: a public-read adapter
yields the direct URL for any duration, a private one yields a signed
URL with the requested window. -/
theorem getDownloadUrl_spec_witness :
    getDownloadUrl ⟨"assets", "us-east-1", some "k", some "s",
      some "public-read"⟩ "f/1.png" 900 =
      Url.direct "https://assets/f/1.png" ∧
    getDownloadUrl ⟨"assets", "us-east-1", some "k", some "s",
      some "private"⟩ "f/1.png" 900 =
      Url.signed "assets" "f/1.png" 900 :=
  ⟨((getDownloadUrl_spec _ "f/1.png" 900).1 rfl).1,
   (getDownloadUrl_spec _ "f/1.png" 900).2.1 (by decide)⟩

/-- C5: with a missing (or empty) access key id or secret, `setupLifecycle`
throws the descriptive missing-credentials error, creates no client,
issues no request, and leaves all state unchanged. -/
theorem setupLifecycle_missingCredentials (opts : AdapterOptions)
    (client0 : Option S3ClientConfig) (st0 : S3State)
    (h : strFalsy opts.accessKeyId = true ∨
      strFalsy opts.secretAccessKey = true) :
    setupLifecycle opts client0 st0 =
      ⟨Except.error (SetupError.missingCredentials
          "Missing AWS credentials in environment variables"),
        client0, st0, []⟩ := by
  rcases h with h | h <;> simp [setupLifecycle, h]

/-- Witness for C5: an adapter configured without an access key id fails
setup with the missing-credentials error and an empty request trace. -/
theorem setupLifecycle_missingCredentials_witness :
    setupLifecycle ⟨"assets", "us-east-1", none, some "s", none⟩ none
        ⟨none, none, none⟩ =
      ⟨Except.error (SetupError.missingCredentials
          "Missing AWS credentials in environment variables"),
        none, ⟨none, none, none⟩, []⟩ :=
  setupLifecycle_missingCredentials _ _ _ (Or.inl rfl)

/-- C6: whenever the bucket-existence probe fails, whatever the error,
`setupLifecycle` throws the single normalized bucket-does-not-exist
error after only the probe request; when the probe succeeds, no
bucket-missing error is ever raised. -/
theorem setupLifecycle_bucketProbe (opts : AdapterOptions)
    (client0 : Option S3ClientConfig) (st0 : S3State)
    (hk : strFalsy opts.accessKeyId = false)
    (hs : strFalsy opts.secretAccessKey = false) :
    (∀ e : S3Error, st0.headErr = some e →
      (setupLifecycle opts client0 st0).result =
        Except.error (SetupError.bucketMissing
          ("Bucket \"" ++ opts.bucket ++ "\" does not exist")) ∧
      (setupLifecycle opts client0 st0).trace =
        [S3Request.headBucket opts.bucket]) ∧
    (st0.headErr = none → ∀ msg : String,
      (setupLifecycle opts client0 st0).result ≠
        Except.error (SetupError.bucketMissing msg)) := by
  obtain ⟨hd, ge, conf⟩ := st0
  constructor
  · intro e he
    simp only at he
    subst he
    simp [setupLifecycle, hk, hs]
  · intro hd0 msg
    simp only at hd0
    subst hd0
    rcases ge with _ | e
    · rcases conf with _ | rs
      · simp [setupLifecycle, getLifecycleRespOf, hk, hs]
      · cases hre : ruleExistsOf (some rs) <;>
          simp [setupLifecycle, getLifecycleRespOf, hk, hs, hre]
    · by_cases hn : e.name = "NoSuchLifecycleConfiguration" <;>
        simp [setupLifecycle, getLifecycleRespOf, hk, hs, hn]

/-- Witness for C6: a failing probe (here an access-denied error) yields
the normalized bucket error with only the probe in the trace, and a
succeeding probe never yields that error. -/
theorem setupLifecycle_bucketProbe_witness :
    ((setupLifecycle ⟨"assets", "us-east-1", some "k", some "s", none⟩ none
        ⟨some ⟨"AccessDenied"⟩, none, none⟩).result =
      Except.error (SetupError.bucketMissing
        "Bucket \"assets\" does not exist") ∧
     (setupLifecycle ⟨"assets", "us-east-1", some "k", some "s", none⟩ none
        ⟨some ⟨"AccessDenied"⟩, none, none⟩).trace =
      [S3Request.headBucket "assets"]) ∧
    (setupLifecycle ⟨"assets", "us-east-1", some "k", some "s", none⟩ none
        ⟨none, none, none⟩).result ≠
      Except.error (SetupError.bucketMissing
        "Bucket \"assets\" does not exist") :=
  ⟨(setupLifecycle_bucketProbe
      ⟨"assets", "us-east-1", some "k", some "s", none⟩ none
      ⟨some ⟨"AccessDenied"⟩, none, none⟩ rfl rfl).1 ⟨"AccessDenied"⟩ rfl,
   (setupLifecycle_bucketProbe
      ⟨"assets", "us-east-1", some "k", some "s", none⟩ none
      ⟨none, none, none⟩ rfl rfl).2 rfl
     "Bucket \"assets\" does not exist"⟩

/-- C7: when the lifecycle-configuration read fails with an error named
`NoSuchLifecycleConfiguration`, setup treats it as "rule not found" and
proceeds to create the rule without surfacing an error; any other
failure of the read is re-thrown and the rule is not created. -/
theorem setupLifecycle_lifecycleCheck (opts : AdapterOptions)
    (client0 : Option S3ClientConfig) (st0 : S3State)
    (hk : strFalsy opts.accessKeyId = false)
    (hs : strFalsy opts.secretAccessKey = false)
    (hhead : st0.headErr = none) (e : S3Error)
    (herr : getLifecycleRespOf st0 = Except.error e) :
    (e.name = "NoSuchLifecycleConfiguration" →
      (setupLifecycle opts client0 st0).result = Except.ok () ∧
      (setupLifecycle opts client0 st0).trace =
        [S3Request.headBucket opts.bucket,
         S3Request.getBucketLifecycleConfiguration opts.bucket,
         S3Request.putBucketLifecycleConfiguration opts.bucket
           [cleanupRule]] ∧
      (setupLifecycle opts client0 st0).s3.lifecycleConf =
        some [cleanupRule]) ∧
    (e.name ≠ "NoSuchLifecycleConfiguration" →
      (setupLifecycle opts client0 st0).result =
        Except.error (SetupError.s3 e) ∧
      putCount (setupLifecycle opts client0 st0).trace = 0 ∧
      (setupLifecycle opts client0 st0).s3 = st0) := by
  obtain ⟨hd, ge, conf⟩ := st0
  simp only at hhead
  subst hhead
  constructor
  · intro hn
    simp [setupLifecycle, hk, hs, herr, hn]
  · intro hn
    simp [setupLifecycle, putCount, hk, hs, herr, hn]

/-- Witness for C7: with no lifecycle configuration present the check's
`NoSuchLifecycleConfiguration` failure leads to rule creation, while an
injected access-denied failure is re-thrown with no rule created. -/
theorem setupLifecycle_lifecycleCheck_witness :
    ((setupLifecycle ⟨"assets", "us-east-1", some "k", some "s", none⟩ none
        ⟨none, none, none⟩).result = Except.ok () ∧
     (setupLifecycle ⟨"assets", "us-east-1", some "k", some "s", none⟩ none
        ⟨none, none, none⟩).s3.lifecycleConf = some [cleanupRule]) ∧
    ((setupLifecycle ⟨"assets", "us-east-1", some "k", some "s", none⟩ none
        ⟨none, some ⟨"AccessDenied"⟩, none⟩).result =
      Except.error (SetupError.s3 ⟨"AccessDenied"⟩) ∧
     putCount (setupLifecycle ⟨"assets", "us-east-1", some "k", some "s",
        none⟩ none ⟨none, some ⟨"AccessDenied"⟩, none⟩).trace = 0) :=
  ⟨⟨((setupLifecycle_lifecycleCheck
        ⟨"assets", "us-east-1", some "k", some "s", none⟩ none
        ⟨none, none, none⟩ rfl rfl rfl
        ⟨"NoSuchLifecycleConfiguration"⟩ rfl).1 rfl).1,
    ((setupLifecycle_lifecycleCheck
        ⟨"assets", "us-east-1", some "k", some "s", none⟩ none
        ⟨none, none, none⟩ rfl rfl rfl
        ⟨"NoSuchLifecycleConfiguration"⟩ rfl).1 rfl).2.2⟩,
   ⟨((setupLifecycle_lifecycleCheck
        ⟨"assets", "us-east-1", some "k", some "s", none⟩ none
        ⟨none, some ⟨"AccessDenied"⟩, none⟩ rfl rfl rfl
        ⟨"AccessDenied"⟩ rfl).2 (by decide)).1,
    ((setupLifecycle_lifecycleCheck
        ⟨"assets", "us-east-1", some "k", some "s", none⟩ none
        ⟨none, some ⟨"AccessDenied"⟩, none⟩ rfl rfl rfl
        ⟨"AccessDenied"⟩ rfl).2 (by decide)).2.1⟩⟩

/-- C2: `setupLifecycle` is idempotent for the lifecycle rule: with the
rule already present it issues no configuration write and leaves the
service state unchanged; with it absent it issues exactly one write of
the single cleanup rule (enabled, filtering the cleanup tag with value
true, expiring after 2 days); and two successive calls leave exactly one
rule carrying the fixed identifier. -/
theorem setupLifecycle_idempotent (opts : AdapterOptions)
    (client0 : Option S3ClientConfig) (st0 : S3State)
    (hk : strFalsy opts.accessKeyId = false)
    (hs : strFalsy opts.secretAccessKey = false)
    (hhead : st0.headErr = none)
    (hge : st0.getLifecycleErr = none)
    (hwf : cleanupIdCount st0.lifecycleConf ≤ 1) :
    ((st0.lifecycleConf.getD []).any
        (fun r => r.ID == CLEANUP_RULE_ID) = true →
      putCount (setupLifecycle opts client0 st0).trace = 0 ∧
      (setupLifecycle opts client0 st0).s3 = st0) ∧
    ((st0.lifecycleConf.getD []).any
        (fun r => r.ID == CLEANUP_RULE_ID) = false →
      putCount (setupLifecycle opts client0 st0).trace = 1 ∧
      S3Request.putBucketLifecycleConfiguration opts.bucket [cleanupRule] ∈
        (setupLifecycle opts client0 st0).trace ∧
      (setupLifecycle opts client0 st0).s3.lifecycleConf =
        some [cleanupRule]) ∧
    cleanupIdCount
      (setupLifecycle opts (setupLifecycle opts client0 st0).client
        (setupLifecycle opts client0 st0).s3).s3.lifecycleConf = 1 ∧
    cleanupRule = ⟨"adminforth-unused-cleaner", "Enabled",
      ⟨⟨"adminforth-candidate-for-cleanup", "true"⟩⟩, ⟨2⟩⟩ := by
  obtain ⟨hd, ge, conf⟩ := st0
  simp only at hhead hge hwf
  subst hhead
  subst hge
  rcases conf with _ | rs
  · refine ⟨?_, ?_, ?_, rfl⟩
    · intro h
      simp at h
    · intro _
      simp [setupLifecycle, getLifecycleRespOf, putCount, hk, hs]
    · simp [setupLifecycle, getLifecycleRespOf, ruleExistsOf,
        cleanupIdCount, hk, hs, cleanupRule]
  · cases hex : rs.any (fun r => r.ID == CLEANUP_RULE_ID)
    · refine ⟨?_, ?_, ?_, rfl⟩
      · intro h
        simp [hex] at h
      · intro _
        simp [setupLifecycle, getLifecycleRespOf, ruleExistsOf, putCount,
          hk, hs, hex]
      · simp [setupLifecycle, getLifecycleRespOf, ruleExistsOf,
          cleanupIdCount, hk, hs, hex, cleanupRule]
    · refine ⟨?_, ?_, ?_, rfl⟩
      · intro _
        simp [setupLifecycle, getLifecycleRespOf, ruleExistsOf, putCount,
          hk, hs, hex]
      · intro h
        simp [hex] at h
      · have h1 : 0 < (rs.filter
            (fun r => r.ID == CLEANUP_RULE_ID)).length := by
          obtain ⟨r, hr, hpr⟩ := List.any_eq_true.mp hex
          exact List.length_pos_of_mem (List.mem_filter.mpr ⟨hr, hpr⟩)
        simp only [cleanupIdCount, Option.getD_some] at hwf
        simp [setupLifecycle, getLifecycleRespOf, ruleExistsOf,
          cleanupIdCount, hk, hs, hex]
        omega

/-- Witness for C2: on a bucket with no lifecycle configuration, the
first setup issues exactly one configuration write and after a second
setup exactly one rule with the cleanup identifier is present. -/
theorem setupLifecycle_idempotent_witness :
    putCount (setupLifecycle ⟨"assets", "us-east-1", some "k", some "s",
        none⟩ none ⟨none, none, none⟩).trace = 1 ∧
    cleanupIdCount
      (setupLifecycle ⟨"assets", "us-east-1", some "k", some "s", none⟩
        (setupLifecycle ⟨"assets", "us-east-1", some "k", some "s", none⟩
          none ⟨none, none, none⟩).client
        (setupLifecycle ⟨"assets", "us-east-1", some "k", some "s", none⟩
          none ⟨none, none, none⟩).s3).s3.lifecycleConf = 1 :=
  ⟨((setupLifecycle_idempotent
      ⟨"assets", "us-east-1", some "k", some "s", none⟩ none
      ⟨none, none, none⟩ rfl rfl rfl rfl (by decide)).2.1 rfl).1,
   (setupLifecycle_idempotent
      ⟨"assets", "us-east-1", some "k", some "s", none⟩ none
      ⟨none, none, none⟩ rfl rfl rfl rfl (by decide)).2.2.1⟩

/-- C3: on an existing key, `markKeyForDeletion` replaces the full
remote tag set with exactly the single cleanup tag and
`markKeyForNotDeletion` replaces it with the empty set, both leaving
every other key untouched. -/
theorem markTagging_spec (opts : AdapterOptions) (store : TagStore)
    (k : String) (ts : List (String × String)) (h : store k = some ts) :
    (∃ st1, markKeyForDeletion opts store k = Except.ok st1 ∧
      st1 k = some [(CLEANUP_TAG_KEY, "true")] ∧
      ∀ k2, k2 ≠ k → st1 k2 = store k2) ∧
    (∃ st2, markKeyForNotDeletion opts store k = Except.ok st2 ∧
      st2 k = some [] ∧
      ∀ k2, k2 ≠ k → st2 k2 = store k2) := by
  constructor
  · refine ⟨fun k2 => if k2 == k then some [(CLEANUP_TAG_KEY, "true")]
      else store k2, ?_, ?_, ?_⟩
    · simp [markKeyForDeletion, s3SendPutObjectTagging,
        markKeyForDeletionCmd, h]
    · simp
    · intro k2 hk2
      simp [beq_iff_eq, hk2]
  · refine ⟨fun k2 => if k2 == k then some [] else store k2, ?_, ?_, ?_⟩
    · simp [markKeyForNotDeletion, s3SendPutObjectTagging,
        markKeyForNotDeletionCmd, h]
    · simp
    · intro k2 hk2
      simp [beq_iff_eq, hk2]

/-- Witness for C3: a key carrying an unrelated tag ends up with exactly
the cleanup tag after mark-for-deletion and with no tags after
mark-for-not-deletion. -/
theorem markTagging_spec_witness :
    (∃ st1, markKeyForDeletion
        ⟨"assets", "us-east-1", some "k", some "s", none⟩
        (fun s => if s == "f/1.png" then some [("a", "b")] else none)
        "f/1.png" = Except.ok st1 ∧
      st1 "f/1.png" = some [(CLEANUP_TAG_KEY, "true")] ∧
      ∀ k2, k2 ≠ "f/1.png" → st1 k2 =
        (fun s => if s == "f/1.png" then some [("a", "b")] else none) k2) ∧
    (∃ st2, markKeyForNotDeletion
        ⟨"assets", "us-east-1", some "k", some "s", none⟩
        (fun s => if s == "f/1.png" then some [("a", "b")] else none)
        "f/1.png" = Except.ok st2 ∧
      st2 "f/1.png" = some [] ∧
      ∀ k2, k2 ≠ "f/1.png" → st2 k2 =
        (fun s => if s == "f/1.png" then some [("a", "b")] else none) k2) :=
  markTagging_spec ⟨"assets", "us-east-1", some "k", some "s", none⟩
    (fun s => if s == "f/1.png" then some [("a", "b")] else none)
    "f/1.png" [("a", "b")] rfl

/-- C10: when no rule with the cleanup identifier is found, the
configuration write contains only the single cleanup rule, so the
bucket's entire lifecycle configuration is replaced and pre-existing
rules with other identifiers are not preserved. -/
theorem setupLifecycle_replacesConfiguration (opts : AdapterOptions)
    (client0 : Option S3ClientConfig) (st0 : S3State)
    (hk : strFalsy opts.accessKeyId = false)
    (hs : strFalsy opts.secretAccessKey = false)
    (hhead : st0.headErr = none)
    (hge : st0.getLifecycleErr = none)
    (rs : List LifecycleRule) (hconf : st0.lifecycleConf = some rs)
    (habsent : rs.any (fun r => r.ID == CLEANUP_RULE_ID) = false) :
    (setupLifecycle opts client0 st0).trace =
      [S3Request.headBucket opts.bucket,
       S3Request.getBucketLifecycleConfiguration opts.bucket,
       S3Request.putBucketLifecycleConfiguration opts.bucket
         [cleanupRule]] ∧
    (setupLifecycle opts client0 st0).s3.lifecycleConf =
      some [cleanupRule] ∧
    ∀ r ∈ rs, r.ID ≠ CLEANUP_RULE_ID →
      r ∉ ((setupLifecycle opts client0 st0).s3.lifecycleConf.getD []) := by
  obtain ⟨hd, ge, conf⟩ := st0
  simp only at hhead hge hconf
  subst hhead
  subst hge
  subst hconf
  refine ⟨?_, ?_, ?_⟩
  · simp [setupLifecycle, getLifecycleRespOf, ruleExistsOf, hk, hs, habsent]
  · simp [setupLifecycle, getLifecycleRespOf, ruleExistsOf, hk, hs, habsent]
  · intro r hr hid
    simp [setupLifecycle, getLifecycleRespOf, ruleExistsOf, hk, hs, habsent]
    intro heq
    exact hid (heq ▸ rfl)

/-- Witness for C10: a bucket holding one unrelated rule ends up with a
configuration consisting of the cleanup rule only, the unrelated rule
gone. -/
theorem setupLifecycle_replacesConfiguration_witness :
    (setupLifecycle ⟨"assets", "us-east-1", some "k", some "s", none⟩ none
      ⟨none, none, some [⟨"other-rule", "Enabled", ⟨⟨"t", "v"⟩⟩, ⟨30⟩⟩]⟩
      ).s3.lifecycleConf = some [cleanupRule] ∧
    (⟨"other-rule", "Enabled", ⟨⟨"t", "v"⟩⟩, ⟨30⟩⟩ : LifecycleRule) ∉
      ((setupLifecycle ⟨"assets", "us-east-1", some "k", some "s", none⟩
        none ⟨none, none, some [⟨"other-rule", "Enabled", ⟨⟨"t", "v"⟩⟩,
          ⟨30⟩⟩]⟩).s3.lifecycleConf.getD []) :=
  ⟨(setupLifecycle_replacesConfiguration
      ⟨"assets", "us-east-1", some "k", some "s", none⟩ none
      ⟨none, none, some [⟨"other-rule", "Enabled", ⟨⟨"t", "v"⟩⟩, ⟨30⟩⟩]⟩
      rfl rfl rfl rfl _ rfl (by decide)).2.1,
   (setupLifecycle_replacesConfiguration
      ⟨"assets", "us-east-1", some "k", some "s", none⟩ none
      ⟨none, none, some [⟨"other-rule", "Enabled", ⟨⟨"t", "v"⟩⟩, ⟨30⟩⟩]⟩
      rfl rfl rfl rfl _ rfl (by decide)).2.2
     ⟨"other-rule", "Enabled", ⟨⟨"t", "v"⟩⟩, ⟨30⟩⟩ (by decide) (by decide)⟩

/-- C8 counterexample: with a readable empty body and a reported content
type that is the empty string, the code falls back to
`application/octet-stream` (JavaScript `||` treats the empty string as
absent), so the data URL does not use the reported content type as the
claim states. -/
theorem getKeyAsDataURL_contentType_counterexample :
    getKeyAsDataURL ⟨S3Body.readable [], some ""⟩ =
      Except.ok ("data:" ++ "application/octet-stream" ++ ";base64," ++
        base64Encode (List.flatten ([] : List (List Nat)))) ∧
    ("data:" ++ "application/octet-stream" ++ ";base64," ++
        base64Encode (List.flatten ([] : List (List Nat)))) ≠
      ("data:" ++ "" ++ ";base64," ++
        base64Encode (List.flatten ([] : List (List Nat)))) := by
  constructor
  · rfl
  · decide

/-- C8 (amended): for a readable body, `getKeyAsDataURL` returns
`data:<ct>;base64,<base64 of the concatenated chunks>` where `<ct>` is
the reported content type when present and non-empty and
`application/octet-stream` when absent or empty; for a non-readable body
it throws the stream-shape error. -/
theorem getKeyAsDataURL_spec (resp : GetObjectOutput) :
    (∀ chunks, resp.Body = S3Body.readable chunks →
      (∀ ct, resp.ContentType = some ct → ct ≠ "" →
        getKeyAsDataURL resp =
          Except.ok ("data:" ++ ct ++ ";base64," ++
            base64Encode chunks.flatten)) ∧
      ((resp.ContentType = none ∨ resp.ContentType = some "") →
        getKeyAsDataURL resp =
          Except.ok ("data:" ++ "application/octet-stream" ++ ";base64," ++
            base64Encode chunks.flatten))) ∧
    (resp.Body = S3Body.notReadable →
      getKeyAsDataURL resp =
        Except.error "Expected Body to be a Readable stream") := by
  obtain ⟨body, ctOpt⟩ := resp
  constructor
  · intro chunks hb
    simp only at hb
    subst hb
    constructor
    · intro ct hct hne
      simp only at hct
      subst hct
      simp [getKeyAsDataURL, jsOr, beq_iff_eq, hne]
    · rintro (hct | hct) <;>
        (simp only at hct; subst hct; simp [getKeyAsDataURL, jsOr])
  · intro hb
    simp only at hb
    subst hb
    rfl

/-- Witness for C8 (amended): the bytes of "Hi" with content type
`text/plain` yield `data:text/plain;base64,SGk=`, and a non-readable
body yields the stream-shape error. -/
theorem getKeyAsDataURL_spec_witness :
    getKeyAsDataURL ⟨S3Body.readable [[72, 105]], some "text/plain"⟩ =
      Except.ok "data:text/plain;base64,SGk=" ∧
    getKeyAsDataURL ⟨S3Body.notReadable, none⟩ =
      Except.error "Expected Body to be a Readable stream" :=
  ⟨(((getKeyAsDataURL_spec ⟨S3Body.readable [[72, 105]],
        some "text/plain"⟩).1 [[72, 105]] rfl).1 "text/plain" rfl
      (by decide)).trans (by decide),
   (getKeyAsDataURL_spec ⟨S3Body.notReadable, none⟩).2 rfl⟩
